import Mathlib

/-!
Verification of the local-first telemetry store of `app.py` (SwiftRover).

The embedding models:
* the SQL history queries issued by `get_historical_data` (cloud and local
  paths share the same SELECT/WHERE/ORDER BY shape);
* the control flow of `get_historical_data` (cloud first when
  `CLOUD_DB_URL` is set, fallback to the local sqlite store on any cloud
  failure, empty list when the local read also raises);
* the background sync loop `sync_loop` inside `start_sync_worker`
  (`if check_internet(): sync_to_cloud()` once per tick);
* the live-data ingestion endpoint `api_live_data` (local save wrapped in
  its own try/except, response built from the polled values);
* the serialization performed by `api_historical_data`.

The module `database_sync` (providing `save_to_local_db`, `sync_to_cloud`,
`check_internet`, `get_cloud_connection`) is imported by `app.py` but its
source is not part of the repository snapshot; where a claim depends on its
internals the definition is modelled from the specification and is marked
as such in its doc comment.
-/

namespace SwiftRover

/-- One telemetry reading, the six fields selected by every history query
in `app.py` (`SELECT timestamp, ultrasonic_cm, ir_left, ir_center,
ir_right, line_state FROM sensor_data`). Optional fields are `NULL`-able
columns. -/
structure SensorRow where
  timestamp : String
  ultrasonic_cm : Option Rat
  ir_left : Option Int
  ir_center : Option Int
  ir_right : Option Int
  line_state : Option String
  deriving Repr, DecidableEq

/-- The date portion of an ISO-8601 timestamp string, as computed by
SQLite's `date(timestamp)` / PostgreSQL's `DATE(timestamp)` on an
ISO-8601 value: its first ten characters `YYYY-MM-DD`. -/
def datePortion (s : String) : String :=
  s.take 10

/-- Ordering used by `ORDER BY timestamp ASC` in both query paths. -/
def tsLE (a b : SensorRow) : Prop :=
  a.timestamp ≤ b.timestamp

instance : DecidableRel tsLE :=
  fun a b => inferInstanceAs (Decidable (a.timestamp ≤ b.timestamp))

instance : IsTotal SensorRow tsLE :=
  ⟨fun a b => le_total a.timestamp b.timestamp⟩

instance : IsTrans SensorRow tsLE :=
  ⟨fun _ _ _ hab hbc => le_trans hab hbc⟩

/-- Semantics of the history SELECT of `get_historical_data`, shared by the
cloud path (`WHERE DATE(timestamp) = %s ORDER BY timestamp ASC`) and the
local path (`WHERE date(timestamp) = date(?) ORDER BY timestamp`): keep the
rows whose timestamp's date portion equals the filter's date portion (all
rows when no filter is given), ordered by timestamp ascending. -/
def sqlQuery (rows : List SensorRow) (dateFilter : Option String) : List SensorRow :=
  let kept := match dateFilter with
    | none => rows
    | some d => rows.filter (fun r => datePortion r.timestamp = datePortion d)
  kept.insertionSort tsLE

/-- Outcome of the cloud read path of `get_historical_data`:
`get_cloud_connection()` returned `(None, error)`; or a connection was
obtained but the query raised; or the query succeeded against the remote
table `table`. -/
inductive CloudRead where
  | noConn (error : String)
  | connFail (exc : String)
  | connOk (table : List SensorRow)
  deriving Repr, DecidableEq

/-- The local-DB block at the bottom of `get_historical_data`: run the
sqlite query on the local table; if sqlite raises, catch and return `[]`. -/
def localFallback (localRead : Except String (List SensorRow))
    (date_str : Option String) : List SensorRow :=
  match localRead with
  | .ok table => sqlQuery table date_str
  | .error _ => []

/-- Result of one `get_historical_data` call together with which stores the
call touched: `cloudAttempted` is true iff `get_cloud_connection()` was
called, `localConsulted` is true iff the sqlite fallback block ran. -/
structure QueryTrace where
  result : List SensorRow
  cloudAttempted : Bool
  localConsulted : Bool
  deriving Repr, DecidableEq

/-- Control flow of `get_historical_data(date_str)` in `app.py`: when
`CLOUD_DB_URL` is the empty string the cloud block is skipped entirely;
otherwise `get_cloud_connection()` is called, a successful cloud query
returns its rows directly, and both a failed connection and a raised cloud
query fall through to the local sqlite block. -/
def get_historical_data_run (cloudDbUrl : String) (cloud : CloudRead)
    (localRead : Except String (List SensorRow)) (date_str : Option String) :
    QueryTrace :=
  if cloudDbUrl = "" then
    { result := localFallback localRead date_str
      cloudAttempted := false
      localConsulted := true }
  else
    match cloud with
    | .connOk table =>
        { result := sqlQuery table date_str
          cloudAttempted := true
          localConsulted := false }
    | .noConn _ =>
        { result := localFallback localRead date_str
          cloudAttempted := true
          localConsulted := true }
    | .connFail _ =>
        { result := localFallback localRead date_str
          cloudAttempted := true
          localConsulted := true }

/-- The list returned by `get_historical_data(date_str)`. -/
def get_historical_data (cloudDbUrl : String) (cloud : CloudRead)
    (localRead : Except String (List SensorRow)) (date_str : Option String) :
    List SensorRow :=
  (get_historical_data_run cloudDbUrl cloud localRead date_str).result

/-- `CLOUD_DB_URL = os.environ.get("DATABASE_URL", "")` in `app.py`. -/
def CLOUD_DB_URL (env : String → Option String) : String :=
  (env "DATABASE_URL").getD ""

/-! ### Background sync loop -/

/-- One `SyncStatus` record (`sync_status.json`): outcome of a sync
attempt, as described in the specification (success flag, reason on
failure, count of rows synced). -/
structure SyncStatus where
  success : Bool
  reason : String
  count : Nat
  deriving Repr, DecidableEq

/-- A row of the local `sensor_data` table: the sample plus its local-only
`synced` bookkeeping flag. -/
structure LocalRow where
  sample : SensorRow
  synced : Bool
  deriving Repr, DecidableEq

/-- Observable state touched by the sync worker: the local table, the
remote table, the persisted status log, and counters recording how many
times `sync_to_cloud` and the remote `writeBatch` were invoked. -/
structure SyncState where
  localRows : List LocalRow
  cloudRows : List SensorRow
  statusLog : List SyncStatus
  syncCalls : Nat
  writeBatchCalls : Nat
  deriving Repr, DecidableEq

/-- Number of rows of `table` whose timestamp is `ts`. -/
def countTs (table : List SensorRow) (ts : String) : Nat :=
  table.countP (fun x => x.timestamp == ts)

/-- Modelled from the spec: one remote upsert keyed on `timestamp`
(§4.3 `writeBatch` of the missing `database_sync` module) — if a row with
the sample's timestamp already exists it is overwritten in place, otherwise
the sample is appended. -/
def upsertOne (table : List SensorRow) (r : SensorRow) : List SensorRow :=
  if table.any (fun x => x.timestamp == r.timestamp) then
    table.map (fun x => if x.timestamp == r.timestamp then r else x)
  else
    table ++ [r]

/-- Modelled from the spec: `writeBatch(samples)` of the missing
`database_sync` module — insert the batch into the remote table with an
upsert keyed on `timestamp`, so replays never create duplicate rows. -/
def writeBatch (table : List SensorRow) (samples : List SensorRow) :
    List SensorRow :=
  samples.foldl upsertOne table

/-- `n` repeated `writeBatch` calls carrying the same samples (the
crash-retry replay scenario). -/
def replayWriteBatch (n : Nat) (table : List SensorRow)
    (samples : List SensorRow) : List SensorRow :=
  match n with
  | 0 => table
  | n + 1 => writeBatch (replayWriteBatch n table samples) samples

/-- Modelled from the spec: `sync_to_cloud()` of the missing
`database_sync` module, per §4.4 steps 3–6 — fetch the unsynced rows; on
empty, record a successful no-op; otherwise connect (`okConn` is the
connect outcome), write the batch remotely, mark it synced locally and
record the status; on connect failure record the failure and mutate
nothing else. -/
def sync_to_cloud (okConn : Bool) (s : SyncState) : SyncState :=
  let s := { s with syncCalls := s.syncCalls + 1 }
  let unsynced := (s.localRows.filter (fun r => !r.synced)).map (·.sample)
  if unsynced.isEmpty then
    { s with statusLog := s.statusLog ++ [⟨true, "", 0⟩] }
  else if okConn then
    { s with
        cloudRows := writeBatch s.cloudRows unsynced
        writeBatchCalls := s.writeBatchCalls + 1
        localRows := s.localRows.map (fun r => { r with synced := true })
        statusLog := s.statusLog ++ [⟨true, "", unsynced.length⟩] }
  else
    { s with statusLog := s.statusLog ++ [⟨false, "connect error", 0⟩] }

/-- One iteration of `sync_loop` in `start_sync_worker` of `app.py`:
`if check_internet(): sync_to_cloud()` — when the prober reports
unreachable the body does nothing at all and the loop just sleeps. -/
def sync_tick (reachable : Bool) (okConn : Bool) (s : SyncState) : SyncState :=
  if reachable then sync_to_cloud okConn s else s

/-- A run of `sync_loop` over a finite prefix of ticks; each tick carries
the prober's answer and the cloud connect outcome for that tick. -/
def sync_loop_run (ticks : List (Bool × Bool)) (s : SyncState) : SyncState :=
  ticks.foldl (fun st t => sync_tick t.1 t.2 st) s

/-- `insert`: the ingestion write into the local store — appends one
sample with `synced = false` (`save_to_local_db`). -/
def insertLocal (s : SyncState) (r : SensorRow) : SyncState :=
  { s with localRows := s.localRows ++ [⟨r, false⟩] }

/-! ### Live-data ingestion endpoint -/

/-- The payload assembled by `api_live_data` from the six Adafruit feed
reads plus the poll timestamp. -/
structure LiveData where
  ultrasonic_cm : Option String
  ir_left : Option String
  ir_center : Option String
  ir_right : Option String
  line_state : Option String
  camera_motion : Option String
  timestamp : String
  deriving Repr, DecidableEq

/-- An HTTP response of the endpoint: `ok` is `jsonify(data)` with status
200, `error` carries a status code and message. -/
inductive ApiResult (α : Type) where
  | ok (a : α)
  | httpError (code : Nat) (msg : String)
  deriving Repr, DecidableEq

/-- Control flow of `api_live_data` in `app.py`: poll the feeds, then
attempt `save_to_local_db` inside its own try/except (`saveResult` is the
outcome of that attempt, `.error` when it raises); a save failure only
prints a warning, and the response is always `jsonify(data)` built from
the polled values. Returns the response together with the warnings
printed. -/
def api_live_data (polled : LiveData) (saveResult : Except String Unit) :
    ApiResult LiveData × List String :=
  let warnings := match saveResult with
    | .ok _ => []
    | .error e => ["Warning: Could not save to local DB: " ++ e]
  (.ok polled, warnings)

/-! ### Historical-data endpoint serialization -/

/-- `r[5] if r[5] else ""` in `api_historical_data`: Python truthiness
maps both `None` and the empty string to `""`. -/
def serializeLineState : Option String → String
  | none => ""
  | some s => if s = "" then "" else s

/-- `r[i] if r[i] is not None else None` in `api_historical_data`: the
identity on a nullable value, written as the code writes it. -/
def serializeOpt {α : Type} : Option α → Option α
  | none => none
  | some v => some v

/-- The JSON body produced by `api_historical_data`. -/
structure HistoricalResponse where
  timestamps : List String
  ultrasonic : List (Option Rat)
  ir_left : List (Option Int)
  ir_center : List (Option Int)
  ir_right : List (Option Int)
  line_state : List String
  deriving Repr, DecidableEq

/-- The serialization loop of `api_historical_data` over the records
returned by `get_historical_data`. -/
def api_historical_data_serialize (records : List SensorRow) :
    HistoricalResponse where
  timestamps := records.map (·.timestamp)
  ultrasonic := records.map (fun r => serializeOpt r.ultrasonic_cm)
  ir_left := records.map (fun r => serializeOpt r.ir_left)
  ir_center := records.map (fun r => serializeOpt r.ir_center)
  ir_right := records.map (fun r => serializeOpt r.ir_right)
  line_state := records.map (fun r => serializeLineState r.line_state)

/-! ### Sample rows used by the concrete witnesses -/

/-- A fully populated sample row. -/
def rowA : SensorRow :=
  ⟨"2024-03-01T10:00:00", some 12, some 1, some 0, some 1, some "centered"⟩

/-- A sample row with every nullable field equal to `NULL`. -/
def rowB : SensorRow :=
  ⟨"2024-03-02T09:00:00", none, none, none, none, none⟩

/-! ### Theorems -/

/-- C1: for every optional date filter, if the cloud read path fails (the
connection cannot be established, or the cloud query raises), then
`get_historical_data` returns the Local Store's query result for that same
filter; no error is surfaced — the caller receives a plain list. -/
theorem cloud_failure_falls_back_to_local
    (url : String) (cloud : CloudRead) (table : List SensorRow)
    (d : Option String) (hurl : url ≠ "")
    (hfail : (∃ e, cloud = CloudRead.noConn e) ∨
      (∃ e, cloud = CloudRead.connFail e)) :
    get_historical_data url cloud (.ok table) d = sqlQuery table d := by
  rcases hfail with ⟨e, rfl⟩ | ⟨e, rfl⟩ <;>
    simp [get_historical_data, get_historical_data_run, localFallback, hurl]

theorem cloud_failure_falls_back_to_local_witness :
    ("postgres://cloud" ≠ "" ∧
      ((∃ e, CloudRead.connFail "boom" = CloudRead.noConn e) ∨
        (∃ e, CloudRead.connFail "boom" = CloudRead.connFail e))) ∧
    get_historical_data "postgres://cloud" (.connFail "boom")
        (.ok [rowA]) (some "2024-03-01") =
      sqlQuery [rowA] (some "2024-03-01") :=
  ⟨⟨by decide, Or.inr ⟨"boom", rfl⟩⟩,
    cloud_failure_falls_back_to_local _ _ _ _ (by decide)
      (Or.inr ⟨"boom", rfl⟩)⟩

/-- C3: the history query semantics shared by the cloud and local paths of
`get_historical_data`: with no filter it returns all rows (a permutation
of the table), with a filter it returns exactly the rows whose timestamp's
date portion matches, and in both cases the result is ordered by timestamp
ascending; the local path (`localFallback` on a successful read) and the
cloud path (`get_historical_data` with a configured URL and a successful
remote query) both compute `sqlQuery`. -/
theorem history_query_contract (rows : List SensorRow) (d : String)
    (f : Option String) (lr : Except String (List SensorRow)) :
    (sqlQuery rows none).Perm rows ∧
    (∀ r, r ∈ sqlQuery rows (some d) ↔
      r ∈ rows ∧ datePortion r.timestamp = datePortion d) ∧
    (sqlQuery rows f).Pairwise tsLE ∧
    localFallback (Except.ok rows) f = sqlQuery rows f ∧
    get_historical_data "postgres://cloud" (.connOk rows) lr f =
      sqlQuery rows f := by
  refine ⟨List.perm_insertionSort tsLE rows, ?_, ?_, rfl, ?_⟩
  · intro r
    simp [sqlQuery, List.mem_insertionSort, List.mem_filter]
  · exact List.sorted_insertionSort tsLE _
  · simp [get_historical_data, get_historical_data_run]

/-- C6: a failure of the local save inside `api_live_data` is caught and
reported as a printed warning, and the endpoint still responds with
`jsonify(data)` built from the polled sensor values — the same response
body as when the save succeeds; the request never fails. -/
theorem save_failure_keeps_response (polled : LiveData) (e : String) :
    api_live_data polled (.error e) =
      (ApiResult.ok polled, ["Warning: Could not save to local DB: " ++ e]) ∧
    (api_live_data polled (.error e)).1 = (api_live_data polled (.ok ())).1 :=
  ⟨rfl, rfl⟩

/-- C7: when `DATABASE_URL` is absent from the environment,
`CLOUD_DB_URL` is the empty string, and `get_historical_data` never
attempts a cloud connection: it serves every query from the local store. -/
theorem absent_database_url_local_only
    (env : String → Option String) (cloud : CloudRead)
    (lr : Except String (List SensorRow)) (d : Option String)
    (h : env "DATABASE_URL" = none) :
    (get_historical_data_run (CLOUD_DB_URL env) cloud lr d).cloudAttempted
        = false ∧
    get_historical_data (CLOUD_DB_URL env) cloud lr d = localFallback lr d := by
  simp [CLOUD_DB_URL, h, get_historical_data, get_historical_data_run]

theorem absent_database_url_local_only_witness :
    ((fun _ : String => (none : Option String)) "DATABASE_URL" = none) ∧
    ((get_historical_data_run (CLOUD_DB_URL fun _ => none) (.connOk [rowA])
        (.ok [rowB]) none).cloudAttempted = false ∧
      get_historical_data (CLOUD_DB_URL fun _ => none) (.connOk [rowA])
          (.ok [rowB]) none =
        localFallback (.ok [rowB]) none) :=
  ⟨rfl, absent_database_url_local_only (fun _ => none) (.connOk [rowA])
    (.ok [rowB]) none rfl⟩

/-- C8: with a configured URL, a successful connection and a successful
cloud query matching zero rows, `get_historical_data` returns the empty
list directly and never consults the local store — the fallback is
triggered only by cloud failure, never by an empty cloud result. -/
theorem empty_cloud_result_no_fallback
    (url : String) (table : List SensorRow)
    (lr : Except String (List SensorRow)) (d : Option String)
    (hurl : url ≠ "") (hempty : sqlQuery table d = []) :
    (get_historical_data_run url (.connOk table) lr d).localConsulted
        = false ∧
    get_historical_data url (.connOk table) lr d = [] := by
  simp [get_historical_data, get_historical_data_run, hurl, hempty]

theorem empty_cloud_result_no_fallback_witness :
    ("postgres://cloud" ≠ "" ∧ sqlQuery [rowA] (some "2024-03-02") = []) ∧
    ((get_historical_data_run "postgres://cloud" (.connOk [rowA])
        (.ok [rowB]) (some "2024-03-02")).localConsulted = false ∧
      get_historical_data "postgres://cloud" (.connOk [rowA]) (.ok [rowB])
        (some "2024-03-02") = []) :=
  ⟨⟨by decide, by decide⟩,
    empty_cloud_result_no_fallback _ _ _ _ (by decide) (by decide)⟩

/-- C9: `get_historical_data` is total at its boundary — in particular,
whenever the cloud path does not succeed (no URL configured, no
connection, or the cloud query raised) and the local read then raises, it
returns the empty list instead of propagating the exception. -/
theorem local_error_returns_empty
    (url : String) (cloud : CloudRead) (e : String) (d : Option String)
    (h : url = "" ∨ ∀ t, cloud ≠ CloudRead.connOk t) :
    get_historical_data url cloud (.error e) d = [] := by
  rcases h with rfl | h
  · simp [get_historical_data, get_historical_data_run, localFallback]
  · by_cases hu : url = ""
    · subst hu
      simp [get_historical_data, get_historical_data_run, localFallback]
    · cases cloud with
      | connOk t => exact absurd rfl (h t)
      | noConn m =>
          simp [get_historical_data, get_historical_data_run, localFallback,
            hu]
      | connFail m =>
          simp [get_historical_data, get_historical_data_run, localFallback,
            hu]

theorem local_error_returns_empty_witness :
    ("postgres://cloud" = "" ∨
      ∀ t, CloudRead.connFail "boom" ≠ CloudRead.connOk t) ∧
    get_historical_data "postgres://cloud" (.connFail "boom")
      (.error "disk error") none = [] :=
  ⟨Or.inr fun _ h => CloudRead.noConfusion h,
    local_error_returns_empty _ _ _ _
      (Or.inr fun _ h => CloudRead.noConfusion h)⟩

/-- C10: in the body produced by `api_historical_data`, a `NULL`
`line_state` is serialized as the empty string, while `NULL` numeric
fields (`ultrasonic`, `ir_left`, `ir_center`, `ir_right`) stay `null`. -/
theorem null_fields_serialization
    (records : List SensorRow) (i : Nat) (r : SensorRow)
    (hr : records[i]? = some r) :
    (r.line_state = none →
      (api_historical_data_serialize records).line_state[i]? = some "") ∧
    (r.ultrasonic_cm = none →
      (api_historical_data_serialize records).ultrasonic[i]? = some none) ∧
    (r.ir_left = none →
      (api_historical_data_serialize records).ir_left[i]? = some none) ∧
    (r.ir_center = none →
      (api_historical_data_serialize records).ir_center[i]? = some none) ∧
    (r.ir_right = none →
      (api_historical_data_serialize records).ir_right[i]? = some none) := by
  refine ⟨?_, ?_, ?_, ?_, ?_⟩ <;> intro h <;>
    simp [api_historical_data_serialize, List.getElem?_map, hr, h,
      serializeLineState, serializeOpt]

theorem null_fields_serialization_witness :
    ([rowB][0]? = some rowB) ∧
    ((rowB.line_state = none →
      (api_historical_data_serialize [rowB]).line_state[0]? = some "") ∧
    (rowB.ultrasonic_cm = none →
      (api_historical_data_serialize [rowB]).ultrasonic[0]? = some none) ∧
    (rowB.ir_left = none →
      (api_historical_data_serialize [rowB]).ir_left[0]? = some none) ∧
    (rowB.ir_center = none →
      (api_historical_data_serialize [rowB]).ir_center[0]? = some none) ∧
    (rowB.ir_right = none →
      (api_historical_data_serialize [rowB]).ir_right[0]? = some none)) :=
  ⟨rfl, null_fields_serialization [rowB] 0 rowB rfl⟩

/-! ### Sync-loop theorems -/

/-- Empty initial state: empty stores, empty status log, zero counters. -/
def syncState0 : SyncState := ⟨[], [], [], 0, 0⟩

/-- An offline tick of `sync_loop` leaves the state untouched: the body
`if check_internet(): sync_to_cloud()` does nothing when the prober says
unreachable. -/
theorem sync_tick_false (okConn : Bool) (s : SyncState) :
    sync_tick false okConn s = s := rfl

/-- A run of `sync_loop` over ticks that all probe unreachable is the
identity on the state. -/
theorem sync_loop_run_offline (ticks : List (Bool × Bool)) (s : SyncState)
    (h : ∀ t ∈ ticks, t.1 = false) : sync_loop_run ticks s = s := by
  induction ticks generalizing s with
  | nil => rfl
  | cons t ts ih =>
    have h1 : t.1 = false := h t (List.mem_cons_self _ _)
    show sync_loop_run ts (sync_tick t.1 t.2 s) = s
    rw [h1, sync_tick_false]
    exact ih s fun u hu => h u (List.mem_cons_of_mem _ hu)

/-- C4: if the prober reports unreachable on every tick, the sync loop
never enters `sync_to_cloud`, never calls `writeBatch`, and leaves the
local store untouched — its contents grow only through the ingestion
`insert`, which appends one unsynced row. -/
theorem offline_safety (ticks : List (Bool × Bool)) (s : SyncState)
    (r : SensorRow) (h : ∀ t ∈ ticks, t.1 = false) :
    (sync_loop_run ticks s).writeBatchCalls = s.writeBatchCalls ∧
    (sync_loop_run ticks s).syncCalls = s.syncCalls ∧
    (sync_loop_run ticks s).localRows = s.localRows ∧
    (insertLocal (sync_loop_run ticks s) r).localRows =
      s.localRows ++ [⟨r, false⟩] := by
  rw [sync_loop_run_offline ticks s h]
  exact ⟨rfl, rfl, rfl, rfl⟩

theorem offline_safety_witness :
    (∀ t ∈ [(false, true), (false, false)], (t : Bool × Bool).1 = false) ∧
    ((sync_loop_run [(false, true), (false, false)] syncState0).writeBatchCalls
        = syncState0.writeBatchCalls ∧
      (sync_loop_run [(false, true), (false, false)] syncState0).syncCalls
        = syncState0.syncCalls ∧
      (sync_loop_run [(false, true), (false, false)] syncState0).localRows
        = syncState0.localRows ∧
      (insertLocal (sync_loop_run [(false, true), (false, false)] syncState0)
          rowA).localRows = syncState0.localRows ++ [⟨rowA, false⟩]) :=
  ⟨by decide, offline_safety _ syncState0 rowA (by decide)⟩

/-- C5 counterexample: on an unreachable tick `sync_loop` records nothing
at all — starting from an empty status log, after one unreachable tick no
`SyncStatus` with `success = false` and `reason = "unreachable"` exists
(the claim asserts one is recorded on every unreachable tick). -/
theorem unreachable_status_cex :
    ¬ ∃ st ∈ (sync_tick false true syncState0).statusLog,
        st.success = false ∧ st.reason = "unreachable" := by
  decide

/-- C5 (amended): on every tick where the prober reports unreachable, the
cycle is skipped — `sync_to_cloud` is not invoked and no `SyncStatus`
record is written; the loop state is unchanged and the worker simply
sleeps until the next tick. -/
theorem unreachable_tick_records_nothing (okConn : Bool) (s : SyncState) :
    (sync_tick false okConn s).statusLog = s.statusLog ∧
    (sync_tick false okConn s).syncCalls = s.syncCalls ∧
    sync_tick false okConn s = s :=
  ⟨rfl, rfl, rfl⟩

/-! ### Idempotence of the remote write -/

/-- Invariant of the remote table: at most one row per timestamp. -/
def NoDupTs (table : List SensorRow) : Prop :=
  ∀ ts, countTs table ts ≤ 1

theorem noDupTs_nil : NoDupTs [] := fun _ => Nat.zero_le 1

theorem countTs_upsertOne_self (table : List SensorRow) (r : SensorRow)
    (h : countTs table r.timestamp ≤ 1) :
    countTs (upsertOne table r) r.timestamp = 1 := by
  unfold upsertOne
  by_cases hx : table.any (fun x => x.timestamp == r.timestamp) = true
  · rw [if_pos hx]
    have hmap : countTs (table.map
        (fun x => if x.timestamp == r.timestamp then r else x)) r.timestamp
        = countTs table r.timestamp := by
      unfold countTs
      rw [List.countP_map]
      apply List.countP_congr
      intro x _
      by_cases hxt : x.timestamp = r.timestamp <;>
        simp [Function.comp, hxt]
    rw [hmap]
    have hpos : 0 < countTs table r.timestamp := by
      unfold countTs
      rw [List.countP_pos_iff]
      rcases List.any_eq_true.mp hx with ⟨x, hxm, hxp⟩
      exact ⟨x, hxm, hxp⟩
    omega
  · rw [if_neg hx]
    unfold countTs
    rw [List.countP_append]
    have h0 : List.countP (fun x => x.timestamp == r.timestamp) table = 0 := by
      rw [List.countP_eq_zero]
      exact fun a ha hc => hx (List.any_eq_true.mpr ⟨a, ha, hc⟩)
    rw [h0]
    simp [List.countP_singleton]

theorem countTs_upsertOne_other (table : List SensorRow) (r : SensorRow)
    (ts : String) (h : ts ≠ r.timestamp) :
    countTs (upsertOne table r) ts = countTs table ts := by
  unfold upsertOne
  by_cases hx : table.any (fun x => x.timestamp == r.timestamp) = true
  · rw [if_pos hx]
    unfold countTs
    rw [List.countP_map]
    apply List.countP_congr
    intro x _
    by_cases hxt : x.timestamp = r.timestamp <;>
      simp [Function.comp, hxt, Ne.symm h]
  · rw [if_neg hx]
    unfold countTs
    rw [List.countP_append]
    have h1 : List.countP (fun x => x.timestamp == ts) [r] = 0 := by
      simp [List.countP_singleton, Ne.symm h]
    omega

theorem noDupTs_upsertOne (table : List SensorRow) (r : SensorRow)
    (h : NoDupTs table) : NoDupTs (upsertOne table r) := by
  intro ts
  by_cases hts : ts = r.timestamp
  · subst hts
    rw [countTs_upsertOne_self table r (h _)]
  · rw [countTs_upsertOne_other table r ts hts]
    exact h ts

theorem noDupTs_writeBatch (samples : List SensorRow)
    (table : List SensorRow) (h : NoDupTs table) :
    NoDupTs (writeBatch table samples) := by
  induction samples generalizing table with
  | nil => exact h
  | cons s rest ih => exact ih (upsertOne table s) (noDupTs_upsertOne table s h)

theorem countTs_writeBatch_preserve (samples : List SensorRow)
    (table : List SensorRow) (ts : String) (h : NoDupTs table)
    (h1 : countTs table ts = 1) :
    countTs (writeBatch table samples) ts = 1 := by
  induction samples generalizing table with
  | nil => exact h1
  | cons s rest ih =>
    refine ih (upsertOne table s) (noDupTs_upsertOne table s h) ?_
    by_cases hts : ts = s.timestamp
    · subst hts
      exact countTs_upsertOne_self table s (h _)
    · rw [countTs_upsertOne_other table s ts hts]
      exact h1

theorem countTs_writeBatch_mem (samples : List SensorRow)
    (table : List SensorRow) (r : SensorRow) (h : NoDupTs table)
    (hr : r ∈ samples) :
    countTs (writeBatch table samples) r.timestamp = 1 := by
  induction samples generalizing table with
  | nil => cases hr
  | cons s rest ih =>
    rcases List.mem_cons.mp hr with rfl | hmem
    · by_cases hrest : r ∈ rest
      · exact ih (upsertOne table r) (noDupTs_upsertOne table r h) hrest
      · exact countTs_writeBatch_preserve rest (upsertOne table r) r.timestamp
          (noDupTs_upsertOne table r h)
          (countTs_upsertOne_self table r (h _))
    · exact ih (upsertOne table s) (noDupTs_upsertOne table s h) hmem

theorem noDupTs_replay (samples : List SensorRow) (n : Nat) :
    NoDupTs (replayWriteBatch n [] samples) := by
  induction n with
  | zero => exact noDupTs_nil
  | succ m ih => exact noDupTs_writeBatch samples _ ih

/-- C2: the remote write is idempotent under retry — after any positive
number of repeated `writeBatch` calls carrying the same samples against an
initially empty remote table, the table holds exactly one row per written
timestamp and at most one row per timestamp overall; replays never create
duplicate rows. (`writeBatch` is modelled from the spec: the
`database_sync` module implementing `sync_to_cloud` is not part of the
repository snapshot.) -/
theorem remote_write_idempotent_under_retry (samples : List SensorRow)
    (n : Nat) (r : SensorRow) (ts : String) (hn : 1 ≤ n)
    (hr : r ∈ samples) :
    countTs (replayWriteBatch n [] samples) r.timestamp = 1 ∧
    countTs (replayWriteBatch n [] samples) ts ≤ 1 := by
  refine ⟨?_, noDupTs_replay samples n ts⟩
  obtain ⟨m, rfl⟩ : ∃ m, n = m + 1 := ⟨n - 1, by omega⟩
  exact countTs_writeBatch_mem samples _ r (noDupTs_replay samples m) hr

theorem remote_write_idempotent_under_retry_witness :
    (1 ≤ 3 ∧ rowA ∈ [rowA, rowB, rowA]) ∧
    (countTs (replayWriteBatch 3 [] [rowA, rowB, rowA]) rowA.timestamp = 1 ∧
      countTs (replayWriteBatch 3 [] [rowA, rowB, rowA])
        "2024-03-02T09:00:00" ≤ 1) :=
  ⟨⟨by decide, by decide⟩,
    remote_write_idempotent_under_retry [rowA, rowB, rowA] 3 rowA
      "2024-03-02T09:00:00" (by decide) (by decide)⟩

end SwiftRover
